import Mathlib

/-!
Verification of the ZeroFS storage-class wrapper
(src/zerofs/src/storage_class_wrapper.rs).

The wrapper decorates an object store: it injects a storage-class
attribute into the options of every write-initiating call and forwards
every other call unchanged to the wrapped backend.  The backend is
embedded as a structure of pure functions; the result types of backend
calls that the wrapper never inspects are embedded as plain carriers.
-/

namespace ZeroFS

/-- Attribute kinds of the object_store Attributes map.  The wrapper only
ever writes the storageClass entry; the other kinds stand for the
remaining variants of the library enum, including the open metadata
family. -/
inductive Attribute where
  | contentDisposition
  | contentEncoding
  | contentLanguage
  | contentType
  | cacheControl
  | storageClass
  | metadata (key : String)
  deriving DecidableEq, Repr

/-- The object_store Attributes collection: a finite map from attribute
kind to attribute value, embedded as a function into Option. -/
def Attributes := Attribute → Option String

/-- The empty attribute map (Attributes::default). -/
def Attributes.empty : Attributes := fun _ => none

/-- Map insert with overwrite semantics: the new value replaces any value
previously stored at the key, all other keys are untouched. -/
def Attributes.insert (m : Attributes) (k : Attribute) (v : String) : Attributes :=
  fun q => if q = k then some v else m q

/-- Lookup in the attribute map. -/
def Attributes.get (m : Attributes) (k : Attribute) : Option String := m k

/-- Version information carried by the conditional-update put mode. -/
structure UpdateVersion where
  e_tag : Option String
  version : Option String
  deriving DecidableEq, Repr

/-- The object_store PutMode enum. -/
inductive PutMode where
  | overwrite
  | create
  | update (v : UpdateVersion)
  deriving DecidableEq, Repr

/-- Object tags; the wrapper never inspects them, so the carrier is a
plain string. -/
def TagSet := String

/-- TagSet::default. -/
def TagSet.default : TagSet := ""

/-- The extension type map of the options; never inspected by the
wrapper, embedded as a plain carrier. -/
def Extensions := String

/-- Extensions::default. -/
def Extensions.default : Extensions := ""

/-- The object_store PutOptions record. -/
structure PutOptions where
  mode : PutMode
  tags : TagSet
  attributes : Attributes
  extensions : Extensions

/-- PutOptions::default: overwrite mode, empty tags, empty attributes,
empty extensions. -/
def PutOptions.default : PutOptions :=
  { mode := PutMode.overwrite
    tags := TagSet.default
    attributes := Attributes.empty
    extensions := Extensions.default }

/-- The object_store PutMultipartOptions record. -/
structure PutMultipartOptions where
  tags : TagSet
  attributes : Attributes
  extensions : Extensions

/-- PutMultipartOptions::default. -/
def PutMultipartOptions.default : PutMultipartOptions :=
  { tags := TagSet.default
    attributes := Attributes.empty
    extensions := Extensions.default }

/-- Object locations (object_store Path); the wrapper passes them through
without inspection. -/
abbrev Path := String

/-- Put payloads; never inspected by the wrapper. -/
abbrev PutPayload := String

/-- Backend errors (object_store Error); the wrapper never constructs or
inspects one, so the carrier is a plain string. -/
abbrev Error := String

/-- The object_store Result type. -/
abbrev Result (α : Type) := Except Error α

/-- The object_store PutResult record. -/
structure PutResult where
  e_tag : Option String
  version : Option String
  deriving DecidableEq, Repr

/-- Get results; never inspected by the wrapper. -/
abbrev GetResult := String

/-- Get options; passed through without inspection. -/
abbrev GetOptions := String

/-- Byte buffers; never inspected by the wrapper. -/
abbrev Bytes := String

/-- Object metadata records; never inspected by the wrapper. -/
abbrev ObjectMeta := String

/-- List-with-delimiter results; never inspected by the wrapper. -/
abbrev ListResult := String

/-- Multipart upload handles returned by the backend; the wrapper hands
them to the caller untouched. -/
abbrev MultipartUpload := String

/-- A half-open u64 range, as in get_range. -/
abbrev RangeU64 := Nat × Nat

/-- The object-store interface the wrapper consumes (dyn ObjectStore),
embedded as a structure of pure functions.  Streams returned by the list
operations are embedded as lists of results; debugRepr and displayRepr
are the Debug and Display renderings of the backend. -/
structure ObjectStoreI where
  put_opts : Path → PutPayload → PutOptions → Result PutResult
  put_multipart_opts : Path → PutMultipartOptions → Result MultipartUpload
  get : Path → Result GetResult
  get_opts : Path → GetOptions → Result GetResult
  get_range : Path → RangeU64 → Result Bytes
  get_ranges : Path → List RangeU64 → Result (List Bytes)
  head : Path → Result ObjectMeta
  delete : Path → Result Unit
  list : Option Path → List (Result ObjectMeta)
  list_with_offset : Option Path → Path → List (Result ObjectMeta)
  list_with_delimiter : Option Path → Result ListResult
  copy : Path → Path → Result Unit
  rename : Path → Path → Result Unit
  copy_if_not_exists : Path → Path → Result Unit
  rename_if_not_exists : Path → Path → Result Unit
  debugRepr : String
  displayRepr : String

/-- The wrapper: a backend handle plus a fixed storage-class label. -/
structure StorageClassObjectStore where
  inner : ObjectStoreI
  storage_class : String

namespace StorageClassObjectStore

/-- StorageClassObjectStore::new. -/
def new (inner : ObjectStoreI) (storage_class : String) : StorageClassObjectStore :=
  { inner := inner, storage_class := storage_class }

/-- add_storage_class_to_put: clone the attribute map of the options,
insert the storage-class entry, and store the map back into the
options. -/
def add_storage_class_to_put (s : StorageClassObjectStore) (opts : PutOptions) : PutOptions :=
  let attrs := opts.attributes.insert Attribute.storageClass s.storage_class
  { opts with attributes := attrs }

/-- add_storage_class_to_multipart: the same clone-insert-store step on
multipart options. -/
def add_storage_class_to_multipart (s : StorageClassObjectStore)
    (opts : PutMultipartOptions) : PutMultipartOptions :=
  let attrs := opts.attributes.insert Attribute.storageClass s.storage_class
  { opts with attributes := attrs }

/-- The Debug rendering of the wrapper. -/
def debugFmt (s : StorageClassObjectStore) : String :=
  "StorageClassObjectStore(" ++ s.inner.debugRepr ++ ", class=" ++ s.storage_class ++ ")"

/-- The Display rendering of the wrapper. -/
def displayFmt (s : StorageClassObjectStore) : String :=
  "StorageClassObjectStore(" ++ s.inner.displayRepr ++ ", class=" ++ s.storage_class ++ ")"

/-- put: augments default put options with the storage class, then
delegates to the backend put_opts. -/
def put (s : StorageClassObjectStore) (location : Path) (payload : PutPayload) :
    Result PutResult :=
  let opts := s.add_storage_class_to_put PutOptions.default
  s.inner.put_opts location payload opts

/-- put_opts: augments the caller-supplied put options with the storage
class, then delegates to the backend put_opts. -/
def put_opts (s : StorageClassObjectStore) (location : Path) (payload : PutPayload)
    (opts : PutOptions) : Result PutResult :=
  let opts := s.add_storage_class_to_put opts
  s.inner.put_opts location payload opts

/-- put_multipart: augments default multipart options with the storage
class, then delegates to the backend put_multipart_opts. -/
def put_multipart (s : StorageClassObjectStore) (location : Path) :
    Result MultipartUpload :=
  let opts := s.add_storage_class_to_multipart PutMultipartOptions.default
  s.inner.put_multipart_opts location opts

/-- put_multipart_opts: augments the caller-supplied multipart options
with the storage class, then delegates to the backend
put_multipart_opts. -/
def put_multipart_opts (s : StorageClassObjectStore) (location : Path)
    (opts : PutMultipartOptions) : Result MultipartUpload :=
  let opts := s.add_storage_class_to_multipart opts
  s.inner.put_multipart_opts location opts

/-- get: pure pass-through. -/
def get (s : StorageClassObjectStore) (location : Path) : Result GetResult :=
  s.inner.get location

/-- get_opts: pure pass-through. -/
def get_opts (s : StorageClassObjectStore) (location : Path) (options : GetOptions) :
    Result GetResult :=
  s.inner.get_opts location options

/-- get_range: pure pass-through. -/
def get_range (s : StorageClassObjectStore) (location : Path) (range : RangeU64) :
    Result Bytes :=
  s.inner.get_range location range

/-- get_ranges: pure pass-through. -/
def get_ranges (s : StorageClassObjectStore) (location : Path)
    (ranges : List RangeU64) : Result (List Bytes) :=
  s.inner.get_ranges location ranges

/-- head: pure pass-through. -/
def head (s : StorageClassObjectStore) (location : Path) : Result ObjectMeta :=
  s.inner.head location

/-- delete: pure pass-through. -/
def delete (s : StorageClassObjectStore) (location : Path) : Result Unit :=
  s.inner.delete location

/-- list: pure pass-through of the listing stream. -/
def list (s : StorageClassObjectStore) (pre : Option Path) :
    List (Result ObjectMeta) :=
  s.inner.list pre

/-- list_with_offset: pure pass-through of the listing stream. -/
def list_with_offset (s : StorageClassObjectStore) (pre : Option Path)
    (offset : Path) : List (Result ObjectMeta) :=
  s.inner.list_with_offset pre offset

/-- list_with_delimiter: pure pass-through. -/
def list_with_delimiter (s : StorageClassObjectStore) (pre : Option Path) :
    Result ListResult :=
  s.inner.list_with_delimiter pre

/-- copy: pure pass-through. -/
def copy (s : StorageClassObjectStore) (src dst : Path) : Result Unit :=
  s.inner.copy src dst

/-- rename: pure pass-through. -/
def rename (s : StorageClassObjectStore) (src dst : Path) : Result Unit :=
  s.inner.rename src dst

/-- copy_if_not_exists: pure pass-through. -/
def copy_if_not_exists (s : StorageClassObjectStore) (src dst : Path) : Result Unit :=
  s.inner.copy_if_not_exists src dst

/-- rename_if_not_exists: pure pass-through. -/
def rename_if_not_exists (s : StorageClassObjectStore) (src dst : Path) : Result Unit :=
  s.inner.rename_if_not_exists src dst

end StorageClassObjectStore

/-- A concrete backend used to instantiate universally quantified
theorems at a specific input. -/
def innerExample : ObjectStoreI :=
  { put_opts := fun _ _ _ => Except.ok { e_tag := none, version := none }
    put_multipart_opts := fun _ _ => Except.ok "upload"
    get := fun _ => Except.ok "data"
    get_opts := fun _ _ => Except.ok "data"
    get_range := fun _ _ => Except.ok "bytes"
    get_ranges := fun _ _ => Except.ok []
    head := fun _ => Except.ok "meta"
    delete := fun _ => Except.ok ()
    list := fun _ => []
    list_with_offset := fun _ _ => []
    list_with_delimiter := fun _ => Except.ok "listing"
    copy := fun _ _ => Except.ok ()
    rename := fun _ _ => Except.ok ()
    copy_if_not_exists := fun _ _ => Except.ok ()
    rename_if_not_exists := fun _ _ => Except.ok ()
    debugRepr := "InMemory"
    displayRepr := "InMemory" }

/-- Concrete put options carrying a content-type attribute, used to
instantiate theorems at a specific input. -/
def optsExample : PutOptions :=
  { PutOptions.default with
    attributes := Attributes.empty.insert Attribute.contentType "text/plain" }

/-- C1: every write-initiating call (put, put_opts, put_multipart,
put_multipart_opts) delivers to the backend an attribute set whose
storage-class entry equals the configured label; a caller-supplied
storage-class value is overwritten.  The first two conjuncts state the
override on the merged attribute set, the last four state that every
write path delegates to the backend with exactly the merged options. -/
theorem c1_storage_class_override (s : StorageClassObjectStore)
    (loc : Path) (payload : PutPayload)
    (opts : PutOptions) (mopts : PutMultipartOptions) :
    (s.add_storage_class_to_put opts).attributes.get Attribute.storageClass
        = some s.storage_class
    ∧ (s.add_storage_class_to_multipart mopts).attributes.get Attribute.storageClass
        = some s.storage_class
    ∧ s.put loc payload
        = s.inner.put_opts loc payload (s.add_storage_class_to_put PutOptions.default)
    ∧ s.put_opts loc payload opts
        = s.inner.put_opts loc payload (s.add_storage_class_to_put opts)
    ∧ s.put_multipart loc
        = s.inner.put_multipart_opts loc
            (s.add_storage_class_to_multipart PutMultipartOptions.default)
    ∧ s.put_multipart_opts loc mopts
        = s.inner.put_multipart_opts loc (s.add_storage_class_to_multipart mopts) := by
  refine ⟨?_, ?_, rfl, rfl, rfl, rfl⟩ <;>
    simp [StorageClassObjectStore.add_storage_class_to_put,
      StorageClassObjectStore.add_storage_class_to_multipart,
      Attributes.get, Attributes.insert]

/-- C2: every non-write operation of the wrapper returns exactly the
result of the same backend operation on the same arguments: same success
value, same error, same stream of list entries, with no attribute
manipulation. -/
theorem c2_passthrough (s : StorageClassObjectStore)
    (loc src dst offset : Path) (pre : Option Path)
    (options : GetOptions) (range : RangeU64) (ranges : List RangeU64) :
    s.get loc = s.inner.get loc
    ∧ s.get_opts loc options = s.inner.get_opts loc options
    ∧ s.get_range loc range = s.inner.get_range loc range
    ∧ s.get_ranges loc ranges = s.inner.get_ranges loc ranges
    ∧ s.head loc = s.inner.head loc
    ∧ s.delete loc = s.inner.delete loc
    ∧ s.list pre = s.inner.list pre
    ∧ s.list_with_offset pre offset = s.inner.list_with_offset pre offset
    ∧ s.list_with_delimiter pre = s.inner.list_with_delimiter pre
    ∧ s.copy src dst = s.inner.copy src dst
    ∧ s.rename src dst = s.inner.rename src dst
    ∧ s.copy_if_not_exists src dst = s.inner.copy_if_not_exists src dst
    ∧ s.rename_if_not_exists src dst = s.inner.rename_if_not_exists src dst :=
  ⟨rfl, rfl, rfl, rfl, rfl, rfl, rfl, rfl, rfl, rfl, rfl, rfl, rfl⟩

/-- C4: put delegates to the backend put_opts with the caller payload and
with freshly built default options whose attribute set holds exactly the
storage-class entry set to the configured label; the remaining option
fields keep their default values. -/
theorem c4_put_default_options (s : StorageClassObjectStore)
    (loc : Path) (payload : PutPayload) :
    s.put loc payload
        = s.inner.put_opts loc payload (s.add_storage_class_to_put PutOptions.default)
    ∧ (∀ k, (s.add_storage_class_to_put PutOptions.default).attributes.get k
        = if k = Attribute.storageClass then some s.storage_class else none)
    ∧ (s.add_storage_class_to_put PutOptions.default).mode = PutMode.overwrite
    ∧ (s.add_storage_class_to_put PutOptions.default).tags = TagSet.default
    ∧ (s.add_storage_class_to_put PutOptions.default).extensions = Extensions.default := by
  refine ⟨rfl, ?_, rfl, rfl, rfl⟩
  intro k
  simp [StorageClassObjectStore.add_storage_class_to_put, PutOptions.default,
    Attributes.get, Attributes.insert, Attributes.empty]

/-- C10: put on the wrapper is put_opts on the wrapper specialised to
default options: both produce the identical backend call and result. -/
theorem c10_put_eq_put_opts_default (s : StorageClassObjectStore)
    (loc : Path) (payload : PutPayload) :
    s.put loc payload = s.put_opts loc payload PutOptions.default := rfl

/-- C3: the merge performed by put_opts and put_multipart_opts is a
frame: every attribute whose key is not the storage class is delegated
unchanged, and the non-attribute fields of the options (mode, tags,
extensions) are delegated unchanged; the final conjuncts state that the
delegated options are exactly the merged ones. -/
theorem c3_frame_preservation (s : StorageClassObjectStore)
    (loc : Path) (payload : PutPayload)
    (opts : PutOptions) (mopts : PutMultipartOptions) :
    (∀ k, k ≠ Attribute.storageClass →
        (s.add_storage_class_to_put opts).attributes.get k = opts.attributes.get k)
    ∧ (s.add_storage_class_to_put opts).mode = opts.mode
    ∧ (s.add_storage_class_to_put opts).tags = opts.tags
    ∧ (s.add_storage_class_to_put opts).extensions = opts.extensions
    ∧ (∀ k, k ≠ Attribute.storageClass →
        (s.add_storage_class_to_multipart mopts).attributes.get k
          = mopts.attributes.get k)
    ∧ (s.add_storage_class_to_multipart mopts).tags = mopts.tags
    ∧ (s.add_storage_class_to_multipart mopts).extensions = mopts.extensions
    ∧ s.put_opts loc payload opts
        = s.inner.put_opts loc payload (s.add_storage_class_to_put opts)
    ∧ s.put_multipart_opts loc mopts
        = s.inner.put_multipart_opts loc (s.add_storage_class_to_multipart mopts) := by
  refine ⟨?_, rfl, rfl, rfl, ?_, rfl, rfl, rfl, rfl⟩ <;>
    · intro k hk
      simp [StorageClassObjectStore.add_storage_class_to_put,
        StorageClassObjectStore.add_storage_class_to_multipart,
        Attributes.get, Attributes.insert, hk]

/-- Witness for C3 at a concrete input: a wrapper with label GLACIER
over the example backend, on options carrying a content-type attribute,
delegates the content-type entry unchanged. -/
theorem c3_frame_preservation_witness :
    ((StorageClassObjectStore.new innerExample
        "GLACIER").add_storage_class_to_put optsExample).attributes.get
          Attribute.contentType
      = optsExample.attributes.get Attribute.contentType :=
  (c3_frame_preservation (StorageClassObjectStore.new innerExample "GLACIER")
    "x" "payload" optsExample PutMultipartOptions.default).1
    Attribute.contentType (by decide)

/-- C5: put_multipart_opts applies the same attribute-merge policy as
put_opts (insert or overwrite the storage-class entry into a clone of the
attribute map) and delegates to the backend put_multipart_opts;
put_multipart does the same starting from default multipart options. -/
theorem c5_multipart_merge_policy (s : StorageClassObjectStore)
    (loc : Path) (opts : PutOptions) (mopts : PutMultipartOptions) :
    (s.add_storage_class_to_multipart mopts).attributes
        = mopts.attributes.insert Attribute.storageClass s.storage_class
    ∧ (s.add_storage_class_to_put opts).attributes
        = opts.attributes.insert Attribute.storageClass s.storage_class
    ∧ s.put_multipart_opts loc mopts
        = s.inner.put_multipart_opts loc (s.add_storage_class_to_multipart mopts)
    ∧ s.put_multipart loc
        = s.inner.put_multipart_opts loc
            (s.add_storage_class_to_multipart PutMultipartOptions.default) :=
  ⟨rfl, rfl, rfl, rfl⟩

/-- C6: no operation of the wrapper introduces an error of its own: the
result of every operation, write paths included, is literally the result
of the corresponding backend call, so the call errors exactly when the
backend call errors and the error value is the backend error
unmodified. -/
theorem c6_error_passthrough (s : StorageClassObjectStore)
    (loc src dst offset : Path) (payload : PutPayload) (pre : Option Path)
    (options : GetOptions) (range : RangeU64) (ranges : List RangeU64)
    (opts : PutOptions) (mopts : PutMultipartOptions) :
    s.put loc payload
        = s.inner.put_opts loc payload (s.add_storage_class_to_put PutOptions.default)
    ∧ s.put_opts loc payload opts
        = s.inner.put_opts loc payload (s.add_storage_class_to_put opts)
    ∧ s.put_multipart loc
        = s.inner.put_multipart_opts loc
            (s.add_storage_class_to_multipart PutMultipartOptions.default)
    ∧ s.put_multipart_opts loc mopts
        = s.inner.put_multipart_opts loc (s.add_storage_class_to_multipart mopts)
    ∧ s.get loc = s.inner.get loc
    ∧ s.get_opts loc options = s.inner.get_opts loc options
    ∧ s.get_range loc range = s.inner.get_range loc range
    ∧ s.get_ranges loc ranges = s.inner.get_ranges loc ranges
    ∧ s.head loc = s.inner.head loc
    ∧ s.delete loc = s.inner.delete loc
    ∧ s.list pre = s.inner.list pre
    ∧ s.list_with_offset pre offset = s.inner.list_with_offset pre offset
    ∧ s.list_with_delimiter pre = s.inner.list_with_delimiter pre
    ∧ s.copy src dst = s.inner.copy src dst
    ∧ s.rename src dst = s.inner.rename src dst
    ∧ s.copy_if_not_exists src dst = s.inner.copy_if_not_exists src dst
    ∧ s.rename_if_not_exists src dst = s.inner.rename_if_not_exists src dst :=
  ⟨rfl, rfl, rfl, rfl, rfl, rfl, rfl, rfl, rfl, rfl, rfl, rfl, rfl, rfl, rfl, rfl, rfl⟩

/-- C7: the backend handle and the storage-class label are fixed at
construction.  The embedding is pure, so no operation can mutate the
wrapper; the theorem states that new stores exactly its arguments, that
every wrapper value is determined by its two construction fields, and
that the label injected on the write path and the backend delegated to
are the ones supplied to new. -/
theorem c7_construction_immutable (b : ObjectStoreI) (label : String)
    (loc : Path) (payload : PutPayload)
    (opts : PutOptions) (mopts : PutMultipartOptions) :
    (StorageClassObjectStore.new b label).inner = b
    ∧ (StorageClassObjectStore.new b label).storage_class = label
    ∧ (∀ s : StorageClassObjectStore, s = StorageClassObjectStore.new s.inner s.storage_class)
    ∧ ((StorageClassObjectStore.new b label).add_storage_class_to_put opts).attributes.get
        Attribute.storageClass = some label
    ∧ ((StorageClassObjectStore.new b label).add_storage_class_to_multipart mopts).attributes.get
        Attribute.storageClass = some label
    ∧ (StorageClassObjectStore.new b label).put loc payload
        = b.put_opts loc payload
            ((StorageClassObjectStore.new b label).add_storage_class_to_put PutOptions.default)
    ∧ (StorageClassObjectStore.new b label).get loc = b.get loc := by
  refine ⟨rfl, rfl, fun s => rfl, ?_, ?_, rfl, rfl⟩ <;>
    simp [StorageClassObjectStore.add_storage_class_to_put,
      StorageClassObjectStore.add_storage_class_to_multipart,
      StorageClassObjectStore.new, Attributes.get, Attributes.insert]

/-- C8: the attribute merge is a pure total function on options: for
every wrapper and every options value it returns the input options with
the storage-class entry inserted into the attribute map, with no error
branch; it is deterministic by being a function. -/
theorem c8_merge_total (s : StorageClassObjectStore)
    (opts : PutOptions) (mopts : PutMultipartOptions) :
    s.add_storage_class_to_put opts
        = { opts with
            attributes := opts.attributes.insert Attribute.storageClass s.storage_class }
    ∧ s.add_storage_class_to_multipart mopts
        = { mopts with
            attributes := mopts.attributes.insert Attribute.storageClass s.storage_class } :=
  ⟨rfl, rfl⟩

/-- Characters of a concatenation of strings, split into the two parts. -/
theorem data_append_eq (a b : String) : (a ++ b).data = a.data ++ b.data := rfl

/-- C9: both textual renderings of the wrapper contain the corresponding
rendering of the backend and the configured storage-class label as
substrings (list-infix of the character sequences). -/
theorem c9_repr_contains (s : StorageClassObjectStore) :
    List.IsInfix s.inner.debugRepr.data s.debugFmt.data
    ∧ List.IsInfix s.storage_class.data s.debugFmt.data
    ∧ List.IsInfix s.inner.displayRepr.data s.displayFmt.data
    ∧ List.IsInfix s.storage_class.data s.displayFmt.data := by
  refine ⟨⟨"StorageClassObjectStore(".data,
      (", class=" ++ s.storage_class ++ ")").data, ?_⟩,
    ⟨("StorageClassObjectStore(" ++ s.inner.debugRepr ++ ", class=").data,
      ")".data, ?_⟩,
    ⟨"StorageClassObjectStore(".data,
      (", class=" ++ s.storage_class ++ ")").data, ?_⟩,
    ⟨("StorageClassObjectStore(" ++ s.inner.displayRepr ++ ", class=").data,
      ")".data, ?_⟩⟩ <;>
    simp [StorageClassObjectStore.debugFmt, StorageClassObjectStore.displayFmt,
      data_append_eq, List.append_assoc]

end ZeroFS
